import Mathlib

/-!
Verification of the webhook metadata-reconciliation component
(`src/webhook/emby.py`, `src/webhook/utils/metadata_enhancer.py`).

The Python code is shallowly embedded:
* JSON / Python values are modelled by `JVal` (JSON numbers are modelled as
  integers — all provider IDs and season/episode indices are integral; floats
  are out of scope).  Python `str()` / `repr()` coercion is `JVal.pyStr` /
  `JVal.pyRepr` (quote-selection and escaping inside `repr` of strings is not
  modelled; it never matters for the claims).
* Dictionary operations (`d.get`, `k in d`, `d[k]`, iteration) are modelled
  with their real dynamic semantics: applied to a non-dict they raise, which
  is modelled by `Except PyErr`.
* The stateful enhancer (cached HTTP client, cached acting-user id) runs in
  the monad `M` = state (client flag, cached user, event trace) + exceptions.
  The remote API is an oracle `NetEnv`; each HTTP request is recorded as an
  event.  URL construction (`_build_url`: urljoin + api_key query parameter)
  is abstracted to the endpoint level (`NetReq`): no claim depends on the
  URL text.  A response whose body fails `response.json()` is modelled as the
  oracle answering `.exn` — it is caught by the same handlers and yields the
  same observable result.
-/

/-- A JSON / Python value as it occurs in webhook payloads and API bodies. -/
inductive JVal where
  | null
  | str (s : String)
  | num (n : Int)
  | bool (b : Bool)
  | arr (xs : List JVal)
  | obj (fields : List (String × JVal))
deriving Repr

/-- Python truthiness (`bool(v)`): None/""/0/False/[]/\x7b\x7d are falsy. -/
def JVal.truthy : JVal → Bool
  | .null => false
  | .str s => !s.isEmpty
  | .num n => n != 0
  | .bool b => b
  | .arr xs => !xs.isEmpty
  | .obj fields => !fields.isEmpty

def JVal.isNull : JVal → Bool
  | .null => true
  | _ => false

mutual

/-- Python `str(v)`. -/
def JVal.pyStr : JVal → String
  | .null => "None"
  | .str s => s
  | .num n => toString n
  | .bool b => if b then "True" else "False"
  | .arr xs => "[" ++ JVal.reprList xs ++ "]"
  | .obj fields => "\x7b" ++ JVal.reprFields fields ++ "\x7d"

/-- Python `repr(v)` (used by `str` on container elements). -/
def JVal.pyRepr : JVal → String
  | .null => "None"
  | .str s => "'" ++ s ++ "'"
  | .num n => toString n
  | .bool b => if b then "True" else "False"
  | .arr xs => "[" ++ JVal.reprList xs ++ "]"
  | .obj fields => "\x7b" ++ JVal.reprFields fields ++ "\x7d"

def JVal.reprList : List JVal → String
  | [] => ""
  | [v] => v.pyRepr
  | v :: rest => v.pyRepr ++ ", " ++ JVal.reprList rest

def JVal.reprFields : List (String × JVal) → String
  | [] => ""
  | [(k, v)] => "'" ++ k ++ "': " ++ v.pyRepr
  | (k, v) :: rest => "'" ++ k ++ "': " ++ v.pyRepr ++ ", " ++ JVal.reprFields rest

end

/-- First-match lookup in an association list (JSON objects parsed from a
webhook body cannot contain duplicate keys, so this is dict lookup). -/
def jlookup (fields : List (String × JVal)) (k : String) : Option JVal :=
  match fields with
  | [] => none
  | (k', v) :: rest => if k' = k then some v else jlookup rest k

/-- The Python exceptions that the modelled code can raise. -/
inductive PyErr where
  | attributeError
  | typeError
  | keyError
  | indexError
  | valueError
  | netError
deriving DecidableEq, Repr

/-- Python `v.get(k, d)`: dict lookup with default; on a non-dict (including
None) `.get` does not exist, so an AttributeError is raised. -/
def pyGetD (v : JVal) (k : String) (d : JVal) : Except PyErr JVal :=
  match v with
  | .obj fields => .ok ((jlookup fields k).getD d)
  | _ => .error .attributeError

/-- Whether a JSON value equals the Python string `s` (`v == s`): only a
string compares equal to a string. -/
def isStrEq (v : JVal) (s : String) : Bool :=
  match v with
  | .str t => t = s
  | _ => false

/-- Python substring test `k in s` for strings (k = "" is always in s). -/
def strContains (s k : String) : Bool :=
  if k = "" then true else (s.splitOn k).length > 1

/-- Python `k in v` for a string key `k`: key membership on dicts, substring
test on strings, element equality on lists; on None/numbers/booleans it
raises a TypeError (argument not iterable). -/
def pyIn (v : JVal) (k : String) : Except PyErr Bool :=
  match v with
  | .obj fields => .ok ((jlookup fields k).isSome)
  | .str s => .ok (strContains s k)
  | .arr xs => .ok (xs.any (fun x => isStrEq x k))
  | _ => .error .typeError

/-- Python `v[k]` for a string key `k`: dict subscription (KeyError when the
key is missing); lists and strings reject string indices with TypeError;
None/numbers/booleans are not subscriptable (TypeError). -/
def pyIndexStr (v : JVal) (k : String) : Except PyErr JVal :=
  match v with
  | .obj fields =>
    match jlookup fields k with
    | some x => .ok x
    | none => .error .keyError
  | _ => .error .typeError

/-- Python `v[i]` for an int index: list/string indexing (IndexError when out
of range); a dict with string keys raises KeyError; otherwise TypeError. -/
def pyIndexNat (v : JVal) (i : Nat) : Except PyErr JVal :=
  match v with
  | .arr xs =>
    match xs.get? i with
    | some x => .ok x
    | none => .error .indexError
  | .str s =>
    match s.toList.get? i with
    | some c => .ok (.str c.toString)
    | none => .error .indexError
  | .obj _ => .error .keyError
  | _ => .error .typeError

/-- Python `for x in v`: lists yield elements, dicts yield their keys,
strings yield their characters; other values are not iterable. -/
def pyIterate (v : JVal) : Except PyErr (List JVal) :=
  match v with
  | .arr xs => .ok xs
  | .obj fields => .ok (fields.map (fun kv => .str kv.1))
  | .str s => .ok (s.toList.map (fun c => .str c.toString))
  | _ => .error .typeError

/-! ## Metadata dictionaries (`metadata_enhancer.py`) -/

/-- The fixed-key metadata dictionary
`\x7btmdb_id, imdb_id, tvdb_id, douban_id, bangumi_id\x7d` used throughout
`metadata_enhancer.py`; each value is `Optional[str]`. -/
structure Metadata where
  tmdb_id : Option String
  imdb_id : Option String
  tvdb_id : Option String
  douban_id : Option String
  bangumi_id : Option String
deriving DecidableEq, Repr

/-- The `default_metadata` dictionary: every provider id is None. -/
def default_metadata : Metadata :=
  { tmdb_id := none, imdb_id := none, tvdb_id := none,
    douban_id := none, bangumi_id := none }

/-- Python truthiness of an `Optional[str]` value (None and "" are falsy). -/
def pyTruthyS : Option String → Bool
  | none => false
  | some s => !s.isEmpty

/-- Python `any(metadata.values())`. -/
def Metadata.anyPresent (m : Metadata) : Bool :=
  pyTruthyS m.tmdb_id || pyTruthyS m.imdb_id || pyTruthyS m.tvdb_id ||
    pyTruthyS m.douban_id || pyTruthyS m.bangumi_id

/-- The five provider kinds of the data model. -/
inductive ProviderKind where
  | tmdb
  | imdb
  | tvdb
  | douban
  | bangumi
deriving DecidableEq, Repr

/-- The ordered alias lists of `id_mappings` (identical in
`_extract_metadata_ids` and `_extract_metadata_from_webhook`). -/
def id_aliases : ProviderKind → List String
  | .tmdb => ["Tmdb", "TheMovieDb", "TMDB"]
  | .imdb => ["Imdb", "IMDB", "IMDb"]
  | .tvdb => ["Tvdb", "TheTVDB", "TVDB"]
  | .douban => ["DoubanID", "Douban", "douban"]
  | .bangumi => ["Bangumi", "bangumi", "BangumiID"]

/-- Field projection of the metadata dictionary by provider kind. -/
def Metadata.getKind (m : Metadata) : ProviderKind → Option String
  | .tmdb => m.tmdb_id
  | .imdb => m.imdb_id
  | .tvdb => m.tvdb_id
  | .douban => m.douban_id
  | .bangumi => m.bangumi_id

/-- The inner alias loop of both extraction functions:
`for field_name in field_names: if field_name in provider_ids and
provider_ids[field_name]: target = str(provider_ids[field_name]); break`;
a falsy raw value is skipped and the scan continues with the next alias. -/
def extract_one (pids : JVal) : List String → Except PyErr (Option String)
  | [] => .ok none
  | name :: rest =>
    match pyIn pids name with
    | .error e => .error e
    | .ok false => extract_one pids rest
    | .ok true =>
      match pyIndexStr pids name with
      | .error e => .error e
      | .ok v => if v.truthy then .ok (some v.pyStr) else extract_one pids rest

/-- The full `id_mappings` loop over the five kinds (shared verbatim by
`_extract_metadata_ids` and `_extract_metadata_from_webhook`). -/
def extract_all (pids : JVal) : Except PyErr Metadata :=
  match extract_one pids (id_aliases .tmdb) with
  | .error e => .error e
  | .ok t =>
  match extract_one pids (id_aliases .imdb) with
  | .error e => .error e
  | .ok i =>
  match extract_one pids (id_aliases .tvdb) with
  | .error e => .error e
  | .ok v =>
  match extract_one pids (id_aliases .douban) with
  | .error e => .error e
  | .ok d =>
  match extract_one pids (id_aliases .bangumi) with
  | .error e => .error e
  | .ok b =>
  .ok { tmdb_id := t, imdb_id := i, tvdb_id := v, douban_id := d, bangumi_id := b }

/-- Source `SafeMetadataEnhancer._extract_metadata_ids(item_data)`. -/
def extract_metadata_ids (item_data : JVal) : Except PyErr Metadata := do
  let provider_ids ← pyGetD item_data "ProviderIds" (.obj [])
  extract_all provider_ids

/-- Source `_extract_metadata_from_webhook(webhook_data)`: the module-level fallback
extractor.  `webhook_data` is the parsed top-level JSON object
(`Dict[str, Any]`).  Note there is no try/except here and none in its caller
`enhance_webhook_metadata`. -/
def extract_metadata_from_webhook (webhook_data : List (String × JVal)) :
    Except PyErr Metadata :=
  let item := (jlookup webhook_data "Item").getD (.obj [])
  match pyGetD item "ProviderIds" (.obj []) with
  | .error e => .error e
  | .ok provider_ids => extract_all provider_ids

/-- One field of `_merge_metadata`'s loops: `if value: merged[key] = value`. -/
def mergePick (base v : Option String) : Option String :=
  if pyTruthyS v then v else base

/-- Source `SafeMetadataEnhancer._merge_metadata(series_metadata, item_metadata)`:
start from all-None, copy the truthy item-level values, then overwrite with
the truthy series-level values. -/
def merge_metadata (series_metadata item_metadata : Option Metadata) : Metadata :=
  let m1 :=
    match item_metadata with
    | some im =>
      { tmdb_id := mergePick none im.tmdb_id,
        imdb_id := mergePick none im.imdb_id,
        tvdb_id := mergePick none im.tvdb_id,
        douban_id := mergePick none im.douban_id,
        bangumi_id := mergePick none im.bangumi_id }
    | none => default_metadata
  match series_metadata with
  | some sm =>
    { tmdb_id := mergePick m1.tmdb_id sm.tmdb_id,
      imdb_id := mergePick m1.imdb_id sm.imdb_id,
      tvdb_id := mergePick m1.tvdb_id sm.tvdb_id,
      douban_id := mergePick m1.douban_id sm.douban_id,
      bangumi_id := mergePick m1.bangumi_id sm.bangumi_id }
  | none => m1

/-! ## The stateful enhancer (`SafeMetadataEnhancer`) -/

/-- A request to the remote media-server API, at endpoint granularity. -/
inductive NetReq where
  | users
  | item (user_id : String) (item_id : String)
deriving DecidableEq, Repr

/-- What the remote API does for one request: a response with a status code
and a decoded JSON body, or a raised transport error / timeout (or a body on
which `response.json()` raises — caught identically everywhere). -/
inductive NetOutcome where
  | resp (status : Nat) (body : JVal)
  | exn
deriving Repr

/-- The behaviour of the remote API, as an oracle over requests. -/
structure NetEnv where
  onReq : NetReq → NetOutcome

/-- Observable I/O events of the enhancer. -/
inductive Ev where
  | clientCreated
  | request (r : NetReq)
deriving Repr

/-- The enhancer's mutable state: whether an HTTP client exists and is open,
the cached acting-user id (`self.user_id`, None when unresolved), and the
trace of I/O events performed so far. -/
structure EnhSt where
  sessionOpen : Bool
  user_id : JVal
  events : List Ev
deriving Repr

/-- The enhancer's configuration read in `__init__` from the environment:
`EMBY_SERVER_URL` and `EMBY_API_KEY` (None when unset). -/
structure EnhConfig where
  emby_url : Option String
  emby_api_key : Option String

/-- Source `self.enabled = bool(self.emby_url)` — false when the URL is unset or
the empty string. -/
def EnhConfig.enabled (c : EnhConfig) : Bool :=
  match c.emby_url with
  | none => false
  | some s => !s.isEmpty

/-- The enhancer's effect monad: state passing plus Python exceptions.
Exceptions do not roll back state (a request already sent stays in the
trace), matching Python. -/
def M (α : Type) : Type := EnhSt → Except PyErr α × EnhSt

def M.pure {α : Type} (a : α) : M α := fun s => (.ok a, s)

def M.bind {α β : Type} (m : M α) (f : α → M β) : M β := fun s =>
  match m s with
  | (.ok a, s1) => f a s1
  | (.error e, s1) => (.error e, s1)

def M.throw {α : Type} (e : PyErr) : M α := fun s => (.error e, s)

/-- Python `try: body except Exception: handler` — the handler observes the state as
mutated by the body up to the raise. -/
def M.tryCatch {α : Type} (m : M α) (h : M α) : M α := fun s =>
  match m s with
  | (.ok a, s1) => (.ok a, s1)
  | (.error _, s1) => h s1

def M.liftE {α : Type} (r : Except PyErr α) : M α := fun s => (r, s)

/-- Source `await session.get(url)` followed by `response.json()`: records the
request, then either yields (status, body) or raises. -/
def net_get (env : NetEnv) (r : NetReq) : M (Nat × JVal) := fun s =>
  let s1 := { s with events := s.events ++ [Ev.request r] }
  match env.onReq r with
  | .resp code body => (.ok (code, body), s1)
  | .exn => (.error .netError, s1)

/-- Source `SafeMetadataEnhancer._get_session`: None when disabled; otherwise lazily
creates the HTTP client (recorded as an event) and returns it. -/
def get_session (cfg : EnhConfig) : M (Option Unit) := fun s =>
  if cfg.enabled = false then (.ok none, s)
  else if s.sessionOpen then (.ok (some ()), s)
  else (.ok (some ()), { s with sessionOpen := true,
                                events := s.events ++ [Ev.clientCreated] })

/-- Source `self.user_id = uid`. -/
def set_user (uid : JVal) : M Unit := fun s => (.ok (), { s with user_id := uid })

def read_state : M EnhSt := fun s => (.ok s, s)

/-- The admin-preferring scan of `_get_user_id`:
`for user in users: if user.get("Policy", \x7b\x7d).get("IsAdministrator",
False): return user["Id"]`. -/
def find_admin_id : List JVal → Except PyErr (Option JVal)
  | [] => .ok none
  | u :: rest => do
    let policy ← pyGetD u "Policy" (.obj [])
    let isAdmin ← pyGetD policy "IsAdministrator" (.bool false)
    if isAdmin.truthy then
      let uid ← pyIndexStr u "Id"
      return some uid
    else
      find_admin_id rest

/-- Source `SafeMetadataEnhancer._get_user_id`: returns the cached id if truthy;
otherwise lists users, prefers an administrator, falls back to
`users[0]["Id"]`; caches the result.  Every failure (non-200 status, falsy
user list, raised exception) yields None. -/
def get_user_id (cfg : EnhConfig) (env : NetEnv) : M JVal :=
  M.bind read_state fun st =>
  if st.user_id.truthy then M.pure st.user_id
  else
    M.bind (get_session cfg) fun sess =>
    match sess with
    | none => M.pure .null
    | some _ =>
      M.tryCatch
        (M.bind (net_get env .users) fun cr =>
          if cr.1 = 200 then
            if cr.2.truthy then
              M.bind (M.liftE (pyIterate cr.2)) fun ulist =>
              M.bind (M.liftE (find_admin_id ulist)) fun adm =>
              match adm with
              | some uid => M.bind (set_user uid) fun _ => M.pure uid
              | none =>
                M.bind (M.liftE (pyIndexNat cr.2 0)) fun u0 =>
                M.bind (M.liftE (pyIndexStr u0 "Id")) fun uid =>
                M.bind (set_user uid) fun _ => M.pure uid
            else M.pure .null
          else M.pure .null)
        (M.pure .null)

/-- Source `SafeMetadataEnhancer._fetch_item_metadata(item_id)`: scoped by the
acting user; on non-success status, timeout, transport error, or any raise
inside the try block returns None.  The f-string URL coerces both ids with
`str()`. -/
def fetch_item_metadata (cfg : EnhConfig) (env : NetEnv) (item_id : JVal) :
    M (Option Metadata) :=
  M.bind (get_session cfg) fun sess =>
  match sess with
  | none => M.pure none
  | some _ =>
    M.bind (get_user_id cfg env) fun uid =>
    if uid.truthy = false then M.pure none
    else
      M.tryCatch
        (M.bind (net_get env (.item uid.pyStr item_id.pyStr)) fun cr =>
          if cr.1 = 200 then M.liftE ((extract_metadata_ids cr.2).map some)
          else M.pure none)
        (M.pure none)

/-- Source `SafeMetadataEnhancer.enhance_metadata(item_id, series_id)`: disabled →
default; else fetch series metadata (only when `series_id` is truthy), fetch
item metadata, merge (series overrides), and fall back to the all-None
default when nothing truthy was found or anything raised. -/
def enhance_metadata (cfg : EnhConfig) (env : NetEnv)
    (item_id series_id : JVal) : M Metadata :=
  if cfg.enabled = false then M.pure default_metadata
  else
    M.tryCatch
      (M.bind (if series_id.truthy then fetch_item_metadata cfg env series_id
               else M.pure none) fun series_metadata =>
       M.bind (fetch_item_metadata cfg env item_id) fun item_metadata =>
       let merged := merge_metadata series_metadata item_metadata
       if merged.anyPresent then M.pure merged else M.pure default_metadata)
      (M.pure default_metadata)

/-- Python truthiness of the `webhook_data` argument (None or a dict). -/
def webhookDataTruthy : Option (List (String × JVal)) → Bool
  | none => false
  | some l => !l.isEmpty

/-- Source `enhance_webhook_metadata(item_id, series_id, webhook_data)`: API
enhancement first; if its result is entirely falsy and `webhook_data` is
truthy, extract directly from the webhook payload (NOT inside any
try/except) and return that result when it has a truthy value, otherwise the
enhancer's result. -/
def enhance_webhook_metadata (cfg : EnhConfig) (env : NetEnv)
    (item_id series_id : JVal)
    (webhook_data : Option (List (String × JVal))) : M Metadata :=
  M.bind (enhance_metadata cfg env item_id series_id) fun enhanced =>
  if (!enhanced.anyPresent && webhookDataTruthy webhook_data) = true then
    match webhook_data with
    | some wd =>
      (match extract_metadata_from_webhook wd with
       | .error e => M.throw e
       | .ok wm => if wm.anyPresent then M.pure wm else M.pure enhanced)
    | none => M.pure enhanced
  else M.pure enhanced

/-! ## The Emby webhook handler (`EmbyWebhook.handle`) -/

/-- Source `event_type in ["item.add", "library.new", "playback.start"]`. -/
def acceptedEvent (v : JVal) : Bool :=
  isStrEq v "item.add" || isStrEq v "library.new" || isStrEq v "playback.start"

/-- Python `f"\x7bn:02d\x7d"` for an int: zero-pad to total width 2, the sign
counted in the width, padding between sign and digits. -/
def format02d (n : Int) : String :=
  let mag := Nat.repr n.natAbs
  let sign := if n < 0 then "-" else ""
  if (sign ++ mag).length < 2 then sign ++ "0" ++ mag else sign ++ mag

/-- Python `f"\x7bv:02d\x7d"` on a JSON value: ints format, bools format as
ints (bool is an int subclass), everything else raises (ValueError /
TypeError — the handler does not catch it). -/
def format02dE (v : JVal) : Except PyErr String :=
  match v with
  | .num n => .ok (format02d n)
  | .bool b => .ok (format02d (if b then 1 else 0))
  | _ => .error .valueError

/-- The five basic provider ids read directly from the payload's
`Item.ProviderIds` with the single fixed keys `Tmdb`, `IMDB`, `Tvdb`,
`DoubanID`, `Bangumi` (emby.py lines 46-50). -/
structure BasicIds where
  tmdb : JVal
  imdb : JVal
  tvdb : JVal
  douban : JVal
  bangumi : JVal
deriving Repr

/-- Field projection of the basic webhook ids by provider kind. -/
def BasicIds.getKind (b : BasicIds) : ProviderKind → JVal
  | .tmdb => b.tmdb
  | .imdb => b.imdb
  | .tvdb => b.tvdb
  | .douban => b.douban
  | .bangumi => b.bangumi

/-- Everything `EmbyWebhook.handle` computes from the payload before the
enhancement call (emby.py lines 24-116 minus the enhancement itself; the
task-title/search-keyword f-strings of lines 83-84 evaluate the same
`:02d` formats already forced by the log lines 66-70, so computing them
here is observably identical). -/
structure ParsedMedia where
  anime_title : JVal
  season_number : JVal
  episode_number : JVal
  item_id : JVal
  series_id : JVal
  year : JVal
  task_title : String
  search_keyword : String
  media_type : String
  event_type : JVal
  basic : BasicIds
deriving Repr

/-- The filtering/parsing phase of `EmbyWebhook.handle` (everything before
the enhancement call).  `.ok none` = silently ignored, `.error` = an
uncaught exception escapes the handler (HTTP 500). -/
def parse_webhook (payload : List (String × JVal)) :
    Except PyErr (Option ParsedMedia) :=
  let event_type := (jlookup payload "Event").getD .null
  if acceptedEvent event_type = false then .ok none else
  let item := (jlookup payload "Item").getD (.obj [])
  if item.truthy = false then .ok none else
  match pyGetD item "Type" .null with
  | .error e => .error e
  | .ok item_type =>
  if (isStrEq item_type "Episode" || isStrEq item_type "Movie") = false then
    .ok none
  else
  match pyGetD item "Id" .null with
  | .error e => .error e
  | .ok item_id =>
  match pyGetD item "ProductionYear" .null with
  | .error e => .error e
  | .ok year =>
  match pyGetD item "ProviderIds" (.obj []) with
  | .error e => .error e
  | .ok provider_ids =>
  match pyGetD provider_ids "Tmdb" .null with
  | .error e => .error e
  | .ok basic_tmdb =>
  match pyGetD provider_ids "IMDB" .null with
  | .error e => .error e
  | .ok basic_imdb =>
  match pyGetD provider_ids "Tvdb" .null with
  | .error e => .error e
  | .ok basic_tvdb =>
  match pyGetD provider_ids "DoubanID" .null with
  | .error e => .error e
  | .ok basic_douban =>
  match pyGetD provider_ids "Bangumi" .null with
  | .error e => .error e
  | .ok basic_bangumi =>
  let basic : BasicIds :=
    { tmdb := basic_tmdb, imdb := basic_imdb, tvdb := basic_tvdb,
      douban := basic_douban, bangumi := basic_bangumi }
  if isStrEq item_type "Episode" then
    match pyGetD item "SeriesName" .null with
    | .error e => .error e
    | .ok series_title =>
    match pyGetD item "SeriesId" .null with
    | .error e => .error e
    | .ok series_id =>
    match pyGetD item "ParentIndexNumber" .null with
    | .error e => .error e
    | .ok season_number =>
    match pyGetD item "IndexNumber" .null with
    | .error e => .error e
    | .ok episode_number =>
    if (series_title.truthy && !season_number.isNull
          && !episode_number.isNull) = false then
      .ok none
    else
    match format02dE season_number with
    | .error e => .error e
    | .ok sfmt =>
    match format02dE episode_number with
    | .error e => .error e
    | .ok efmt =>
    .ok (some
      { anime_title := series_title, season_number := season_number,
        episode_number := episode_number, item_id := item_id,
        series_id := series_id, year := year,
        task_title := "Webhook（emby）搜索: " ++ series_title.pyStr
          ++ " - S" ++ sfmt ++ "E" ++ efmt,
        search_keyword := series_title.pyStr ++ " S" ++ sfmt ++ "E" ++ efmt,
        media_type := "tv_series", event_type := event_type, basic := basic })
  else
    match pyGetD item "Name" .null with
    | .error e => .error e
    | .ok movie_title =>
    if movie_title.truthy = false then .ok none else
    .ok (some
      { anime_title := movie_title, season_number := .num 1,
        episode_number := .num 1, item_id := item_id, series_id := .null,
        year := year,
        task_title := "Webhook（emby）搜索: " ++ movie_title.pyStr,
        search_keyword := movie_title.pyStr,
        media_type := "movie", event_type := event_type, basic := basic })

/-- The task description submitted to
`task_manager.submit_task(task_coro, task_title, unique_key)`, with the
keyword arguments of `webhook_search_and_dispatch_task`. -/
structure SubmittedTask where
  anime_title : JVal
  media_type : String
  season : JVal
  current_episode_index : JVal
  year : JVal
  search_keyword : String
  douban_id : Option String
  tmdb_id : Option String
  imdb_id : Option String
  tvdb_id : Option String
  bangumi_id : Option String
  webhook_source : String
  event_type : JVal
  task_title : String
  unique_key : String
deriving Repr

/-- One final provider id (emby.py lines 119-123 and 137-141):
`final = enhanced.get(key) or basic` followed by
`str(final) if final else None`. -/
def final_id (enh : Option String) (basic : JVal) : Option String :=
  let merged : JVal :=
    match enh with
    | none => basic
    | some s => if s.isEmpty then basic else .str s
  if merged.truthy then some merged.pyStr else none

/-- Source `unique_key = f"webhook-search-\x7banime_title\x7d-S\x7bseason_number\x7d-E\x7bepisode_number\x7d"`. -/
def unique_key_of (title season episode : JVal) : String :=
  "webhook-search-" ++ title.pyStr ++ "-S" ++ season.pyStr ++ "-E" ++ episode.pyStr

/-- The dispatch section of `handle` (emby.py lines 118-151): merge the
enhanced and basic ids and build the submitted task. -/
def mk_task (pm : ParsedMedia) (enhanced : Metadata) : SubmittedTask :=
  { anime_title := pm.anime_title,
    media_type := pm.media_type,
    season := pm.season_number,
    current_episode_index := pm.episode_number,
    year := pm.year,
    search_keyword := pm.search_keyword,
    douban_id := final_id enhanced.douban_id pm.basic.douban,
    tmdb_id := final_id enhanced.tmdb_id pm.basic.tmdb,
    imdb_id := final_id enhanced.imdb_id pm.basic.imdb,
    tvdb_id := final_id enhanced.tvdb_id pm.basic.tvdb,
    bangumi_id := final_id enhanced.bangumi_id pm.basic.bangumi,
    webhook_source := "emby",
    event_type := pm.event_type,
    task_title := pm.task_title,
    unique_key := unique_key_of pm.anime_title pm.season_number pm.episode_number }

/-- Field projection of the final merged identity by provider kind. -/
def SubmittedTask.getKind (t : SubmittedTask) : ProviderKind → Option String
  | .tmdb => t.tmdb_id
  | .imdb => t.imdb_id
  | .tvdb => t.tvdb_id
  | .douban => t.douban_id
  | .bangumi => t.bangumi_id

/-- Source `EmbyWebhook.handle` on an already-parsed JSON object body: filter and
parse, call `enhance_webhook_metadata` inside try/except (falling back to
the all-None dict), then always submit the search task.  `.ok none` = no
task dispatched and no error surfaced. -/
def handle (cfg : EnhConfig) (env : NetEnv)
    (payload : List (String × JVal)) : M (Option SubmittedTask) :=
  match parse_webhook payload with
  | .error e => M.throw e
  | .ok none => M.pure none
  | .ok (some pm) =>
    M.bind
      (M.tryCatch
        (enhance_webhook_metadata cfg env pm.item_id pm.series_id (some payload))
        (M.pure default_metadata))
      fun enhanced => M.pure (some (mk_task pm enhanced))

/-! ## Helper lemmas -/

/-- Every character list produced by `Nat.toDigitsCore` contains its
accumulator, hence is at least as long. -/
theorem toDigitsCore_length_le (b : Nat) :
    ∀ (fuel n : Nat) (ds : List Char),
      ds.length ≤ (Nat.toDigitsCore b fuel n ds).length := by
  intro fuel
  induction fuel with
  | zero => intro n ds; simp [Nat.toDigitsCore]
  | succ f ih =>
    intro n ds
    simp only [Nat.toDigitsCore]
    split
    · simp
    · calc ds.length ≤ (Nat.digitChar (n % b) :: ds).length := by simp
        _ ≤ _ := ih _ _

/-- With positive fuel, `Nat.toDigitsCore` emits at least one digit. -/
theorem toDigitsCore_length_pos (b f n : Nat) (ds : List Char) :
    ds.length + 1 ≤ (Nat.toDigitsCore b (f + 1) n ds).length := by
  simp only [Nat.toDigitsCore]
  split
  · simp
  · have h := toDigitsCore_length_le b f (n / b) (Nat.digitChar (n % b) :: ds)
    simpa using h

/-- The decimal representation of a natural number is never empty. -/
theorem natRepr_ne_empty (n : Nat) : Nat.repr n ≠ "" := by
  intro h
  have hlen : (Nat.repr n).length = 0 := by rw [h]; rfl
  have h1 : 1 ≤ (Nat.repr n).length := by
    have := toDigitsCore_length_pos 10 n n []
    simpa [Nat.repr, Nat.toDigits, String.length, List.asString] using this
  omega

/-- Python `str(i)` of an integer is never empty. -/
theorem intToString_ne_empty (n : Int) : toString n ≠ "" := by
  show Int.repr n ≠ ""
  cases n with
  | ofNat m => simpa [Int.repr] using natRepr_ne_empty m
  | negSucc m =>
    intro h
    have hl : (("-" : String) ++ Nat.repr (m + 1)).length = 0 := by
      rw [show ("-" : String) ++ Nat.repr (m+1) = "" from h]; rfl
    simp [String.length_append] at hl
    exact absurd hl.1 (by decide)

/-- The `str()` coercion of a truthy value is never the empty string. -/
theorem pyStr_ne_empty_of_truthy (v : JVal) (h : v.truthy = true) :
    v.pyStr ≠ "" := by
  cases v with
  | null => simp [JVal.truthy] at h
  | str s =>
    intro hc
    simp only [JVal.pyStr] at hc
    rw [hc] at h
    exact absurd h (by decide)
  | num n => simpa [JVal.pyStr] using intToString_ne_empty n
  | bool b => cases b with
    | true => simp [JVal.pyStr]
    | false => simp [JVal.truthy] at h
  | arr xs =>
    intro hc
    have hl : (("[" : String) ++ JVal.reprList xs ++ "]").length = 0 := by
      rw [show ("[" : String) ++ JVal.reprList xs ++ "]" = "" from hc]; rfl
    simp [String.length_append] at hl
    exact absurd hl.1.1 (by decide)
  | obj fields =>
    intro hc
    have hl : (("\x7b" : String) ++ JVal.reprFields fields ++ "\x7d").length = 0 := by
      rw [show ("\x7b" : String) ++ JVal.reprFields fields ++ "\x7d" = "" from hc]; rfl
    simp [String.length_append] at hl
    exact absurd hl.1.1 (by decide)

/-- Spec-side: whether alias `n` is present in the identifier map with a
truthy value. -/
def presentTruthy (fields : List (String × JVal)) (n : String) : Bool :=
  match jlookup fields n with
  | some v => v.truthy
  | none => false

/-- Modelled from the spec's words: first-match-wins alias resolution — the
value of the first alias in the ordered list that is present with a truthy
value, coerced with `str()`; absent if no alias matches. -/
def firstAliasMatch (fields : List (String × JVal)) (names : List String) :
    Option String :=
  (names.find? fun n => presentTruthy fields n).bind
    fun n => (jlookup fields n).map JVal.pyStr

/-- On a dict, the source's alias loop never raises and implements
first-match-wins resolution. -/
theorem extract_one_obj (fields : List (String × JVal)) :
    ∀ names, extract_one (.obj fields) names = .ok (firstAliasMatch fields names) := by
  intro names
  induction names with
  | nil => rfl
  | cons n rest ih =>
    simp only [extract_one, pyIn, firstAliasMatch, List.find?]
    cases h : jlookup fields n with
    | none =>
      simp only [h, Option.isSome_none, presentTruthy, h]
      simpa [firstAliasMatch] using ih
    | some v =>
      simp only [h, Option.isSome_some, presentTruthy, h, pyIndexStr]
      cases hv : v.truthy with
      | true => simp [h, hv]
      | false => simpa [h, hv, firstAliasMatch] using ih

/-- The function `extract_all` on a dict succeeds, one first-match resolution per kind. -/
theorem extract_all_obj (fields : List (String × JVal)) :
    extract_all (.obj fields) = .ok
      { tmdb_id := firstAliasMatch fields (id_aliases .tmdb),
        imdb_id := firstAliasMatch fields (id_aliases .imdb),
        tvdb_id := firstAliasMatch fields (id_aliases .tvdb),
        douban_id := firstAliasMatch fields (id_aliases .douban),
        bangumi_id := firstAliasMatch fields (id_aliases .bangumi) } := by
  simp [extract_all, extract_one_obj]

/-- C3: provider-ID extraction resolves each kind through its ordered alias
list, first match wins; an absent alias yields an absent value, never an
error; the identifier map with only key "IMDB" set to "tt1" yields
IMDb = "tt1" through both extraction entry points. -/
theorem C3_alias_resolution_first_match_wins :
    (∀ (fields : List (String × JVal)) (k : ProviderKind),
      ∃ m : Metadata, extract_all (.obj fields) = .ok m ∧
        m.getKind k = firstAliasMatch fields (id_aliases k))
    ∧ extract_metadata_ids (.obj [("ProviderIds", .obj [("IMDB", .str "tt1")])])
        = .ok { tmdb_id := none, imdb_id := some "tt1", tvdb_id := none,
                douban_id := none, bangumi_id := none }
    ∧ extract_metadata_from_webhook
        [("Item", .obj [("ProviderIds", .obj [("IMDB", .str "tt1")])])]
        = .ok { tmdb_id := none, imdb_id := some "tt1", tvdb_id := none,
                douban_id := none, bangumi_id := none } := by
  refine ⟨?_, rfl, rfl⟩
  intro fields k
  refine ⟨_, extract_all_obj fields, ?_⟩
  cases k <;> rfl

/-- C10, part of the proof: an extracted id always stems from a truthy alias
value via `str()`. -/
theorem C10_extraction_never_empty :
    (∀ (fields : List (String × JVal)) (k : ProviderKind) (s : String),
       extract_one (.obj fields) (id_aliases k) = .ok (some s) →
       (∃ n v, n ∈ id_aliases k ∧ jlookup fields n = some v ∧
          v.truthy = true ∧ s = v.pyStr) ∧ s ≠ "")
    ∧ (∀ (fields : List (String × JVal)) (n : String) (rest : List String),
       presentTruthy fields n = false →
       extract_one (.obj fields) (n :: rest) = extract_one (.obj fields) rest) := by
  constructor
  · intro fields k s h
    rw [extract_one_obj] at h
    have h' : firstAliasMatch fields (id_aliases k) = some s := by
      injection h
    unfold firstAliasMatch at h'
    cases hf : (id_aliases k).find? (fun n => presentTruthy fields n) with
    | none => rw [hf] at h'; simp at h'
    | some n =>
      rw [hf] at h'
      simp only [Option.some_bind] at h'
      cases hl : jlookup fields n with
      | none => rw [hl] at h'; simp at h'
      | some v =>
        rw [hl] at h'
        simp only [Option.map_some'] at h'
        have hmem : n ∈ id_aliases k := List.mem_of_find?_eq_some hf
        have hp : presentTruthy fields n = true := by
          have := List.find?_some hf
          simpa using this
        have hv : v.truthy = true := by
          simpa [presentTruthy, hl] using hp
        have hs : s = v.pyStr := by
          injection h'.symm
        exact ⟨⟨n, v, hmem, hl, hv, hs⟩,
          hs ▸ pyStr_ne_empty_of_truthy v hv⟩
  · intro fields n rest h
    rw [extract_one_obj, extract_one_obj]
    simp [firstAliasMatch, List.find?_cons, h]

/-- The by-kind value of an `Optional[Dict]` metadata argument (None ↦ all
fields absent). -/
def optKind (om : Option Metadata) (k : ProviderKind) : Option String :=
  match om with
  | some m => m.getKind k
  | none => none

/-- Modelled from the spec's words: series-level overrides when present,
else the item-level value when present, else absent. -/
def seriesItemMergeSpec (sv iv : Option String) : Option String :=
  if pyTruthyS sv then sv else if pyTruthyS iv then iv else none

/-- C2: the Enhancer's internal merge starts from the item-level values and
overwrites each field with the series-level value exactly when the
series-level value is present; an absent series value never erases a
present item value. -/
theorem C2_series_level_overrides :
    ∀ (series_metadata item_metadata : Option Metadata) (k : ProviderKind),
      (merge_metadata series_metadata item_metadata).getKind k =
        seriesItemMergeSpec (optKind series_metadata k) (optKind item_metadata k) := by
  intro sm im k
  cases sm <;> cases im <;> cases k <;>
    simp [merge_metadata, Metadata.getKind, mergePick, default_metadata,
      optKind, seriesItemMergeSpec, pyTruthyS]

/-- Modelled from the spec's words: the merged identity takes the enhanced
value when present, else the basic webhook value when present, else absent
(a value is present when truthy, i.e. not None/""/0). -/
def mergedIdentitySpec (enh : Option String) (basic : JVal) : Option String :=
  if pyTruthyS enh then enh
  else if basic.truthy then some basic.pyStr else none

/-- The source's `enhanced or basic` followed by `str(final) if final else
None` equals the spec's per-kind selector. -/
theorem final_id_eq_spec (e : Option String) (b : JVal) :
    final_id e b = mergedIdentitySpec e b := by
  cases e with
  | none => simp [final_id, mergedIdentitySpec, pyTruthyS]
  | some s =>
    by_cases hs : s.isEmpty
    · simp [final_id, mergedIdentitySpec, pyTruthyS, hs]
    · simp [final_id, mergedIdentitySpec, pyTruthyS, hs, JVal.truthy, JVal.pyStr]

def c1_example_parsed : ParsedMedia :=
  { anime_title := .str "Foo", season_number := .num 1, episode_number := .num 1,
    item_id := .str "i1", series_id := .null, year := .null,
    task_title := "Webhook（emby）搜索: Foo", search_keyword := "Foo",
    media_type := "movie", event_type := .str "item.add",
    basic := { tmdb := .str "2", imdb := .str "9", tvdb := .null,
               douban := .null, bangumi := .null } }

def c1_example_enhanced : Metadata :=
  { tmdb_id := some "1", imdb_id := none, tvdb_id := none,
    douban_id := none, bangumi_id := none }

/-- C1: for each provider kind, the merged identity handed to the dispatched
task is the enhanced value if present, else the basic webhook value if
present, else absent; in particular enhanced tmdb "1" with basic tmdb "2",
imdb "9" merges to tmdb "1", imdb "9". -/
theorem C1_merge_enhanced_precedence :
    (∀ (pm : ParsedMedia) (enhanced : Metadata) (k : ProviderKind),
       (mk_task pm enhanced).getKind k =
         mergedIdentitySpec (enhanced.getKind k) (pm.basic.getKind k))
    ∧ (mk_task c1_example_parsed c1_example_enhanced).tmdb_id = some "1"
    ∧ (mk_task c1_example_parsed c1_example_enhanced).imdb_id = some "9"
    ∧ (mk_task c1_example_parsed c1_example_enhanced).tvdb_id = none
    ∧ (mk_task c1_example_parsed c1_example_enhanced).douban_id = none
    ∧ (mk_task c1_example_parsed c1_example_enhanced).bangumi_id = none := by
  refine ⟨?_, rfl, rfl, rfl, rfl, rfl⟩
  intro pm enhanced k
  cases k <;>
    simp [mk_task, SubmittedTask.getKind, Metadata.getKind, BasicIds.getKind,
      final_id_eq_spec]

/-! ## Concrete fixtures used by witnesses -/

/-- A configuration with no base API URL configured (EMBY_SERVER_URL unset). -/
def cfgOff : EnhConfig := { emby_url := none, emby_api_key := none }

/-- An arbitrary remote-API behaviour (every request raises). -/
def env0 : NetEnv := { onReq := fun _ => .exn }

/-- Fresh enhancer state: no client, no cached user, empty trace. -/
def st0 : EnhSt := { sessionOpen := false, user_id := .null, events := [] }

/-- C6: with no configured base URL, every call to `enhance_metadata`
returns the all-absent mapping immediately, with the state (client,
cached user, I/O trace) unchanged: no client is created and no request
is issued. -/
theorem C6_disabled_no_network :
    ∀ (cfg : EnhConfig) (env : NetEnv) (item_id series_id : JVal) (st : EnhSt),
      cfg.enabled = false →
      enhance_metadata cfg env item_id series_id st = (.ok default_metadata, st) := by
  intro cfg env i s st h
  simp [enhance_metadata, h, M.pure]

/-- Witness for C6 at a concrete disabled configuration. -/
theorem C6_disabled_no_network_witness :
    cfgOff.enabled = false ∧
      enhance_metadata cfgOff env0 (.str "item1") .null st0
        = (.ok default_metadata, st0) :=
  ⟨rfl, C6_disabled_no_network cfgOff env0 (.str "item1") .null st0 rfl⟩

/-- C4 (code bug): with enhancement disabled and the raw webhook payload
whose "Item" field is null, `enhance_webhook_metadata` raises an
AttributeError (`None.get("ProviderIds")` in the uncovered fallback
extractor) instead of returning a metadata mapping. -/
theorem C4_enhancement_raises_attribute_error :
    enhance_webhook_metadata cfgOff env0 (.str "item1") .null
      (some [("Item", JVal.null)]) st0
      = (.error .attributeError, st0) := rfl

/-- Structural well-formedness of a webhook payload for the fallback
extractor (the shape §6 of the spec prescribes): the "Item" field, when
present, is an object, and its "ProviderIds" field, when present, is an
object. -/
def wfWebhookPayload (wd : List (String × JVal)) : Bool :=
  match jlookup wd "Item" with
  | none => true
  | some (.obj ifs) =>
    (match jlookup ifs "ProviderIds" with
     | none => true
     | some (.obj _) => true
     | some _ => false)
  | some _ => false

/-- On a well-formed payload the fallback extractor always succeeds. -/
theorem extract_from_webhook_wf (wd : List (String × JVal))
    (h : wfWebhookPayload wd = true) :
    ∃ wm, extract_metadata_from_webhook wd = .ok wm := by
  unfold wfWebhookPayload at h
  unfold extract_metadata_from_webhook
  cases hi : jlookup wd "Item" with
  | none =>
    exact ⟨_, by simp only [hi, Option.getD_none, pyGetD]; exact extract_all_obj _⟩
  | some v =>
    rw [hi] at h
    cases v with
    | obj ifs =>
      simp only at h
      cases hp : jlookup ifs "ProviderIds" with
      | none =>
        exact ⟨_, by
          simp only [Option.getD_some, pyGetD, hp, Option.getD_none]
          exact extract_all_obj _⟩
      | some pv =>
        rw [hp] at h
        cases pv with
        | obj pfs =>
          exact ⟨_, by
            simp only [Option.getD_some, pyGetD, hp]
            exact extract_all_obj _⟩
        | null => simp at h
        | str s => simp at h
        | num n => simp at h
        | bool b => simp at h
        | arr xs => simp at h
    | null => simp at h
    | str s => simp at h
    | num n => simp at h
    | bool b => simp at h
    | arr xs => simp at h

/-- C7: when the API enhancement result is entirely absent and a raw
webhook payload was supplied, the fallback extraction over the payload's
Item.ProviderIds runs; its result is returned when it has at least one
present value, otherwise the all-absent enhancer result is returned. -/
theorem C7_webhook_fallback :
    ∀ (cfg : EnhConfig) (env : NetEnv) (item_id series_id : JVal)
      (wd : List (String × JVal)) (st : EnhSt) (m : Metadata) (st1 : EnhSt),
      wfWebhookPayload wd = true →
      enhance_metadata cfg env item_id series_id st = (.ok m, st1) →
      m.anyPresent = false →
      ∃ wm, extract_metadata_from_webhook wd = .ok wm ∧
        enhance_webhook_metadata cfg env item_id series_id (some wd) st =
          (.ok (if wm.anyPresent then wm else m), st1) := by
  intro cfg env item_id series_id wd st m st1 hwf hm hpres
  obtain ⟨wm, hwm⟩ := extract_from_webhook_wf wd hwf
  refine ⟨wm, hwm, ?_⟩
  unfold enhance_webhook_metadata M.bind
  rw [hm]
  dsimp only
  rw [hpres]
  cases hemp : wd.isEmpty with
  | true =>
    -- webhook_data is falsy: the fallback is skipped and `m` is returned;
    -- but an empty payload also extracts to the all-None dictionary, so the
    -- right-hand side coincides.
    have hnil : wd = [] := by
      cases wd with
      | nil => rfl
      | cons a l => simp at hemp
    subst hnil
    have : wm = default_metadata := by
      have : extract_metadata_from_webhook [] = .ok default_metadata := rfl
      rw [this] at hwm
      injection hwm with h2
      exact h2.symm
    subst this
    simp [webhookDataTruthy, M.pure, Metadata.anyPresent, default_metadata, pyTruthyS]
  | false =>
    simp only [webhookDataTruthy, hemp, Bool.not_false, Bool.and_true, M.pure]
    rw [hwm]
    cases hany : wm.anyPresent <;> simp [hany, M.pure]

/-! ## C5: ignorable payloads -/

/-- The payload's Event is outside the accepted set. -/
def eventIgnored (payload : List (String × JVal)) : Bool :=
  !acceptedEvent ((jlookup payload "Event").getD .null)

/-- The payload's Item is absent/falsy, or is an object whose Type is
neither "Episode" nor "Movie". -/
def itemTypeIgnored (payload : List (String × JVal)) : Bool :=
  match jlookup payload "Item" with
  | none => true
  | some v =>
    if v.truthy = false then true
    else
      match v with
      | .obj fs =>
        !(isStrEq ((jlookup fs "Type").getD .null) "Episode"
          || isStrEq ((jlookup fs "Type").getD .null) "Movie")
      | _ => false

/-- The Item's ProviderIds field, when present, is an object (spec §6
shape; otherwise the handler raises while reading the basic ids, before
the claim's Episode checks are reached). -/
def wfProviderIds (fs : List (String × JVal)) : Bool :=
  match jlookup fs "ProviderIds" with
  | none => true
  | some (.obj _) => true
  | some _ => false

/-- The payload is an accepted Episode that lacks a truthy series title, a
season number, or an episode number. -/
def episodeMissingFields (payload : List (String × JVal)) : Bool :=
  match jlookup payload "Item" with
  | some (.obj fs) =>
    (JVal.obj fs).truthy &&
    isStrEq ((jlookup fs "Type").getD .null) "Episode" &&
    wfProviderIds fs &&
    (!((jlookup fs "SeriesName").getD .null).truthy
      || ((jlookup fs "ParentIndexNumber").getD .null).isNull
      || ((jlookup fs "IndexNumber").getD .null).isNull)
  | _ => false

theorem parse_event_ignored (p : List (String × JVal))
    (h : acceptedEvent ((jlookup p "Event").getD .null) = false) :
    parse_webhook p = .ok none := by
  unfold parse_webhook
  simp [h]

theorem parse_item_falsy (p : List (String × JVal))
    (h : ((jlookup p "Item").getD (.obj [])).truthy = false) :
    parse_webhook p = .ok none := by
  unfold parse_webhook
  by_cases hev : acceptedEvent ((jlookup p "Event").getD .null) = false
  · simp [hev]
  · simp [hev, h]

theorem parse_type_ignored (p : List (String × JVal))
    (fs : List (String × JVal))
    (hit : jlookup p "Item" = some (.obj fs))
    (h1 : isStrEq ((jlookup fs "Type").getD .null) "Episode" = false)
    (h2 : isStrEq ((jlookup fs "Type").getD .null) "Movie" = false) :
    parse_webhook p = .ok none := by
  unfold parse_webhook
  by_cases hev : acceptedEvent ((jlookup p "Event").getD .null) = false
  · simp [hev]
  · by_cases htr : (JVal.obj fs).truthy = false
    · simp [hev, hit, htr]
    · simp [hev, hit, htr, pyGetD, h1, h2]

theorem parse_episode_missing (p : List (String × JVal))
    (fs : List (String × JVal))
    (hit : jlookup p "Item" = some (.obj fs))
    (htr : (JVal.obj fs).truthy = true)
    (hty : isStrEq ((jlookup fs "Type").getD .null) "Episode" = true)
    (hwf : wfProviderIds fs = true)
    (hmiss : (!((jlookup fs "SeriesName").getD .null).truthy
      || ((jlookup fs "ParentIndexNumber").getD .null).isNull
      || ((jlookup fs "IndexNumber").getD .null).isNull) = true) :
    parse_webhook p = .ok none := by
  have hcond : (((jlookup fs "SeriesName").getD .null).truthy
      && !((jlookup fs "ParentIndexNumber").getD .null).isNull
      && !((jlookup fs "IndexNumber").getD .null).isNull) = false := by
    cases ha : ((jlookup fs "SeriesName").getD .null).truthy <;>
      cases hb : ((jlookup fs "ParentIndexNumber").getD .null).isNull <;>
      cases hc : ((jlookup fs "IndexNumber").getD .null).isNull <;>
      simp_all
  unfold parse_webhook
  by_cases hev : acceptedEvent ((jlookup p "Event").getD .null) = false
  · simp [hev]
  · unfold wfProviderIds at hwf
    cases hp : jlookup fs "ProviderIds" with
    | none =>
      simp [hev, hit, htr, pyGetD, hty, hp, hcond]
    | some pv =>
      rw [hp] at hwf
      cases pv with
      | obj pfs => simp [hev, hit, htr, pyGetD, hty, hp, hcond]
      | null => simp at hwf
      | str s => simp at hwf
      | num n => simp at hwf
      | bool b => simp at hwf
      | arr xs => simp at hwf

theorem parse_ignored_none (p : List (String × JVal))
    (h : (eventIgnored p || itemTypeIgnored p || episodeMissingFields p) = true) :
    parse_webhook p = .ok none := by
  rcases (by simpa [Bool.or_eq_true] using h :
      (eventIgnored p = true ∨ itemTypeIgnored p = true)
        ∨ episodeMissingFields p = true) with (h1 | h2) | h3
  · exact parse_event_ignored p (by simpa [eventIgnored] using h1)
  · unfold itemTypeIgnored at h2
    cases hit : jlookup p "Item" with
    | none => exact parse_item_falsy p (by simp [hit, JVal.truthy])
    | some v =>
      rw [hit] at h2
      dsimp only at h2
      by_cases htr : v.truthy = false
      · exact parse_item_falsy p (by simp [hit, htr])
      · rw [if_neg htr] at h2
        cases v with
        | obj fs =>
          simp only [Bool.not_or, Bool.and_eq_true, Bool.not_eq_true'] at h2
          exact parse_type_ignored p fs hit h2.1 h2.2
        | null => simp at h2
        | str s => simp at h2
        | num n => simp at h2
        | bool b => simp at h2
        | arr xs => simp at h2
  · unfold episodeMissingFields at h3
    cases hit : jlookup p "Item" with
    | none => rw [hit] at h3; exact absurd h3 (by simp)
    | some v =>
      rw [hit] at h3
      cases v with
      | obj fs =>
        simp only [Bool.and_eq_true] at h3
        exact parse_episode_missing p fs hit h3.1.1.1 h3.1.1.2 h3.1.2 h3.2
      | null => simp at h3
      | str s => simp at h3
      | num n => simp at h3
      | bool b => simp at h3
      | arr xs => simp at h3

/-- C5: any well-formed payload whose Event is outside the accepted set,
whose Item type is not Episode or Movie, or which is an Episode missing
series title, season number, or episode number, is handled with no
dispatched task, no surfaced error, and no side effect. -/
theorem C5_irrelevant_payloads_ignored :
    ∀ (payload : List (String × JVal)) (cfg : EnhConfig) (env : NetEnv)
      (st : EnhSt),
      (eventIgnored payload || itemTypeIgnored payload
        || episodeMissingFields payload) = true →
      handle cfg env payload st = (.ok none, st) := by
  intro p cfg env st h
  unfold handle
  rw [parse_ignored_none p h]
  rfl

/-- Witness for C5 on a payload with an unaccepted event. -/
theorem C5_irrelevant_payloads_ignored_witness :
    (eventIgnored [("Event", JVal.str "system.ping")]
      || itemTypeIgnored [("Event", JVal.str "system.ping")]
      || episodeMissingFields [("Event", JVal.str "system.ping")]) = true
    ∧ handle cfgOff env0 [("Event", JVal.str "system.ping")] st0 = (.ok none, st0) :=
  ⟨by decide, C5_irrelevant_payloads_ignored [("Event", JVal.str "system.ping")]
      cfgOff env0 st0 (by decide)⟩

/-- Any task a handler run submits carries the unique key determined by its
own title, season, and episode fields. -/
theorem handle_unique_key (cfg : EnhConfig) (env : NetEnv)
    (p : List (String × JVal)) (st st' : EnhSt) (t : SubmittedTask)
    (h : handle cfg env p st = (.ok (some t), st')) :
    t.unique_key = unique_key_of t.anime_title t.season t.current_episode_index := by
  unfold handle at h
  cases hp : parse_webhook p with
  | error e =>
    rw [hp] at h
    exact absurd h (by simp [M.throw])
  | ok o =>
    rw [hp] at h
    cases o with
    | none => exact absurd h (by simp [M.pure])
    | some pm =>
      dsimp only [M.bind] at h
      cases hr : M.tryCatch
          (enhance_webhook_metadata cfg env pm.item_id pm.series_id (some p))
          (M.pure default_metadata) st with
      | mk r s1 =>
        rw [hr] at h
        cases r with
        | error e => simp at h
        | ok enhanced =>
          dsimp only [M.pure] at h
          have ht : mk_task pm enhanced = t := by
            have := congrArg Prod.fst h
            simpa using this
          subst ht
          rfl

/-- C8: two handler runs that dispatch tasks agreeing on title, season and
episode carry the identical unique dispatch key, whatever the provider IDs,
enrichment results, event types, configurations, API behaviours or states
of the two deliveries were. -/
theorem C8_unique_key_deterministic :
    ∀ (cfg1 : EnhConfig) (env1 : NetEnv) (p1 : List (String × JVal))
      (st1 st1' : EnhSt) (t1 : SubmittedTask)
      (cfg2 : EnhConfig) (env2 : NetEnv) (p2 : List (String × JVal))
      (st2 st2' : EnhSt) (t2 : SubmittedTask),
      handle cfg1 env1 p1 st1 = (.ok (some t1), st1') →
      handle cfg2 env2 p2 st2 = (.ok (some t2), st2') →
      t1.anime_title = t2.anime_title →
      t1.season = t2.season →
      t1.current_episode_index = t2.current_episode_index →
      t1.unique_key = t2.unique_key := by
  intro cfg1 env1 p1 st1 st1' t1 cfg2 env2 p2 st2 st2' t2 h1 h2 e1 e2 e3
  rw [handle_unique_key cfg1 env1 p1 st1 st1' t1 h1,
    handle_unique_key cfg2 env2 p2 st2 st2' t2 h2, e1, e2, e3]

def c8_payload_a : List (String × JVal) :=
  [("Event", .str "item.add"),
   ("Item", .obj [("Type", .str "Movie"), ("Name", .str "Foo"),
                  ("ProviderIds", .obj [("Tmdb", .str "100")])])]

def c8_payload_b : List (String × JVal) :=
  [("Event", .str "playback.start"),
   ("Item", .obj [("Type", .str "Movie"), ("Name", .str "Foo"),
                  ("ProviderIds", .obj [("DoubanID", .str "7")])])]

/-- Witness for C8: two deliveries for the movie "Foo" with different
events and provider ids produce tasks with the same unique key. -/
theorem C8_unique_key_deterministic_witness :
    ∃ (t1 t2 : SubmittedTask) (s1 s2 : EnhSt),
      handle cfgOff env0 c8_payload_a st0 = (.ok (some t1), s1) ∧
      handle cfgOff env0 c8_payload_b st0 = (.ok (some t2), s2) ∧
      t1.unique_key = t2.unique_key := by
  refine ⟨_, _, _, _, rfl, rfl, ?_⟩
  exact C8_unique_key_deterministic cfgOff env0 c8_payload_a st0 _ _
    cfgOff env0 c8_payload_b st0 _ _ rfl rfl rfl rfl rfl

/-- A `try/except` around a total fallback always succeeds. -/
theorem tryCatch_pure_total {α : Type} (m : M α) (d : α) (s : EnhSt) :
    ∃ v s', M.tryCatch m (M.pure d) s = (.ok v, s') := by
  unfold M.tryCatch
  cases hm : m s with
  | mk r s1 =>
    cases r with
    | ok a => exact ⟨a, s1, rfl⟩
    | error e => exact ⟨d, s1, rfl⟩

def movie_payload (T : String) : List (String × JVal) :=
  [("Event", .str "item.add"),
   ("Item", .obj [("Type", .str "Movie"), ("Name", .str T)])]

def episode_payload (T : String) : List (String × JVal) :=
  [("Event", .str "item.add"),
   ("Item", .obj [("Type", .str "Episode"), ("SeriesName", .str T),
                  ("ParentIndexNumber", .num 1), ("IndexNumber", .num 1)])]

def movie_parsed (T : String) : ParsedMedia :=
  { anime_title := .str T, season_number := .num 1, episode_number := .num 1,
    item_id := .null, series_id := .null, year := .null,
    task_title := "Webhook（emby）搜索: " ++ T, search_keyword := T,
    media_type := "movie", event_type := .str "item.add",
    basic := { tmdb := .null, imdb := .null, tvdb := .null,
               douban := .null, bangumi := .null } }

def episode_parsed (T : String) : ParsedMedia :=
  { anime_title := .str T, season_number := .num 1, episode_number := .num 1,
    item_id := .null, series_id := .null, year := .null,
    task_title := "Webhook（emby）搜索: " ++ T ++ " - S" ++ "01" ++ "E" ++ "01",
    search_keyword := T ++ " S" ++ "01" ++ "E" ++ "01",
    media_type := "tv_series", event_type := .str "item.add",
    basic := { tmdb := .null, imdb := .null, tvdb := .null,
               douban := .null, bangumi := .null } }

theorem parse_movie_payload (T : String) (hT : T ≠ "") :
    parse_webhook (movie_payload T) = .ok (some (movie_parsed T)) := by
  have hE : T.isEmpty = false := by
    cases he : T.isEmpty with
    | true => exact absurd (String.isEmpty_iff T |>.mp he) hT
    | false => rfl
  unfold parse_webhook movie_payload movie_parsed
  simp [jlookup, acceptedEvent, isStrEq, pyGetD, JVal.truthy, hE,
    JVal.pyStr]

theorem parse_episode_payload (T : String) (hT : T ≠ "") :
    parse_webhook (episode_payload T) = .ok (some (episode_parsed T)) := by
  have hE : T.isEmpty = false := by
    cases he : T.isEmpty with
    | true => exact absurd (String.isEmpty_iff T |>.mp he) hT
    | false => rfl
  have hfmt : format02d 1 = "01" := rfl
  unfold parse_webhook episode_payload episode_parsed
  simp [jlookup, acceptedEvent, isStrEq, pyGetD, JVal.truthy, hE,
    JVal.isNull, format02dE, hfmt, JVal.pyStr]

theorem unique_key_of_S1E1 (T : String) :
    unique_key_of (.str T) (.num 1) (.num 1)
      = "webhook-search-" ++ T ++ "-S1-E1" := by
  have h1 : (JVal.num 1).pyStr = "1" := rfl
  have h2 : ("-S" ++ ("1" ++ ("-E" ++ "1")) : String) = "-S1-E1" := rfl
  unfold unique_key_of
  rw [JVal.pyStr, h1]
  rw [String.append_assoc, String.append_assoc, String.append_assoc,
    String.append_assoc, h2, ← String.append_assoc]

/-- C9: a Movie payload titled T and an Episode payload with series title T,
season 1, episode 1, both accepted, are dispatched with the identical
unique key "webhook-search-T-S1-E1" — the key omits media type and year, so
the two different media units collapse onto one submission key. -/
theorem C9_movie_episode_key_collision :
    ∀ (T : String) (cfg : EnhConfig) (env : NetEnv) (s1 s2 : EnhSt),
      T ≠ "" →
      ∃ (t1 t2 : SubmittedTask) (s1' s2' : EnhSt),
        handle cfg env (movie_payload T) s1 = (.ok (some t1), s1') ∧
        handle cfg env (episode_payload T) s2 = (.ok (some t2), s2') ∧
        t1.media_type = "movie" ∧ t2.media_type = "tv_series" ∧
        t1.season = .num 1 ∧ t1.current_episode_index = .num 1 ∧
        t2.season = .num 1 ∧ t2.current_episode_index = .num 1 ∧
        t1.unique_key = "webhook-search-" ++ T ++ "-S1-E1" ∧
        t2.unique_key = t1.unique_key := by
  intro T cfg env s1 s2 hT
  obtain ⟨v1, s1', hv1⟩ := tryCatch_pure_total
    (enhance_webhook_metadata cfg env (movie_parsed T).item_id
      (movie_parsed T).series_id (some (movie_payload T)))
    default_metadata s1
  obtain ⟨v2, s2', hv2⟩ := tryCatch_pure_total
    (enhance_webhook_metadata cfg env (episode_parsed T).item_id
      (episode_parsed T).series_id (some (episode_payload T)))
    default_metadata s2
  refine ⟨mk_task (movie_parsed T) v1, mk_task (episode_parsed T) v2,
    s1', s2', ?_, ?_, rfl, rfl, rfl, rfl, rfl, rfl, ?_, ?_⟩
  · unfold handle
    rw [parse_movie_payload T hT]
    dsimp only [M.bind]
    rw [hv1]
    rfl
  · unfold handle
    rw [parse_episode_payload T hT]
    dsimp only [M.bind]
    rw [hv2]
    rfl
  · exact unique_key_of_S1E1 T
  · rfl

/-- Witness for C9 at T = "Foo". -/
theorem C9_movie_episode_key_collision_witness :
    ∃ (t1 t2 : SubmittedTask) (s1' s2' : EnhSt),
      handle cfgOff env0 (movie_payload "Foo") st0 = (.ok (some t1), s1') ∧
      handle cfgOff env0 (episode_payload "Foo") st0 = (.ok (some t2), s2') ∧
      t1.media_type = "movie" ∧ t2.media_type = "tv_series" ∧
      t1.season = .num 1 ∧ t1.current_episode_index = .num 1 ∧
      t2.season = .num 1 ∧ t2.current_episode_index = .num 1 ∧
      t1.unique_key = "webhook-search-" ++ "Foo" ++ "-S1-E1" ∧
      t2.unique_key = t1.unique_key :=
  C9_movie_episode_key_collision "Foo" cfgOff env0 st0 st0 (by decide)

def c7_payload : List (String × JVal) :=
  [("Item", .obj [("ProviderIds", .obj [("Tmdb", .str "77")])])]

/-- Witness for C7: with enhancement disabled (all-absent API result), a
payload carrying Tmdb "77" is rescued by the fallback pass. -/
theorem C7_webhook_fallback_witness :
    ∃ wm, extract_metadata_from_webhook c7_payload = .ok wm ∧
      enhance_webhook_metadata cfgOff env0 (.str "i1") .null
        (some c7_payload) st0 =
        (.ok (if wm.anyPresent then wm else default_metadata), st0) :=
  C7_webhook_fallback cfgOff env0 (.str "i1") .null c7_payload st0
    default_metadata st0 rfl rfl rfl

def c10_fields : List (String × JVal) :=
  [("Tmdb", .str ""), ("TheMovieDb", .num 0), ("TMDB", .num 7)]

/-- Witness for C10: the empty-string and zero values of the first two
aliases are skipped; "7" is extracted from the third and is nonempty. -/
theorem C10_extraction_never_empty_witness :
    ((∃ n v, n ∈ id_aliases .tmdb ∧ jlookup c10_fields n = some v ∧
        v.truthy = true ∧ "7" = v.pyStr) ∧ "7" ≠ "")
    ∧ extract_one (.obj c10_fields) ("Tmdb" :: ["TheMovieDb", "TMDB"])
        = extract_one (.obj c10_fields) ["TheMovieDb", "TMDB"] :=
  ⟨C10_extraction_never_empty.1 c10_fields .tmdb "7" rfl,
   C10_extraction_never_empty.2 c10_fields "Tmdb" ["TheMovieDb", "TMDB"] rfl⟩
